import Mathlib

/-!
Shallow embedding of `homework.py`, a fitness-tracker module.

Python floats are modelled as exact rationals (`ℚ`); every numeric
literal of the source (`0.65`, `1.38`, `1.79`, ...) denotes the same
decimal value exactly in `ℚ`.  None of the properties below depends on
binary floating-point rounding.  A raised Python exception is modelled
as `Except.error` carrying the exception message; string formatting is
modelled character-exactly.
-/

/-- The `InfoMessage` dataclass: an informational record about one
finished workout (`training_type`, `duration`, `distance`, `speed`,
`calories`). -/
structure InfoMessage where
  training_type : String
  duration : ℚ
  distance : ℚ
  speed : ℚ
  calories : ℚ
deriving DecidableEq

/-- The three low decimal digits of `n`, most significant first; used to
render the fractional part of a fixed-point number. -/
def threeDigits (n : ℕ) : String :=
  String.mk [Nat.digitChar (n / 100 % 10), Nat.digitChar (n / 10 % 10),
    Nat.digitChar (n % 10)]

/-- Python `format(x, ".3f")` on the model: fixed-point rendering with
exactly three digits after the point.  (Exact midpoints round up here
rather than to even; no claim below depends on tie behaviour, and the
concrete values involved are never ties.) -/
def fmt3 (q : ℚ) : String :=
  (if round (q * 1000) < 0 then "-" else "")
    ++ toString ((round (q * 1000)).natAbs / 1000)
    ++ "." ++ threeDigits ((round (q * 1000)).natAbs % 1000)

/-- `InfoMessage.get_message`: `MESSAGE.format(**asdict(self))`, i.e. the
fixed template with the four numeric fields rendered via `:.3f` and the
training type inserted verbatim. -/
def InfoMessage.get_message (m : InfoMessage) : String :=
  "Тип тренировки: " ++ m.training_type
    ++ "; Длительность: " ++ fmt3 m.duration
    ++ " ч.; Дистанция: " ++ fmt3 m.distance
    ++ " км; Ср. скорость: " ++ fmt3 m.speed
    ++ " км/ч; Потрачено ккал: " ++ fmt3 m.calories ++ "."

/-- The `Training` class hierarchy as a closed sum: the base class
`Training` itself (constructible in Python) and its three subclasses.
Field order follows each `__init__`. -/
inductive Training where
  | base (action duration weight : ℚ)
  | running (action duration weight : ℚ)
  | sportsWalking (action duration weight height : ℚ)
  | swimming (action duration weight length_pool count_pool : ℚ)
deriving DecidableEq

namespace Training

/-- `Training.M_IN_KM = 1000`. -/
def M_IN_KM : ℚ := 1000

/-- `Training.MINUTES_IN_HOUR = 60`. -/
def MINUTES_IN_HOUR : ℚ := 60

/-- `LEN_STEP`: `0.65` on the base class, overridden to `1.38` by
`Swimming` only. -/
def LEN_STEP : Training → ℚ
  | .swimming .. => 1.38
  | _ => 0.65

/-- `self.action`, shared by every class of the hierarchy. -/
def action : Training → ℚ
  | .base a _ _ => a
  | .running a _ _ => a
  | .sportsWalking a _ _ _ => a
  | .swimming a _ _ _ _ => a

/-- `self.duration`, shared by every class of the hierarchy. -/
def duration : Training → ℚ
  | .base _ d _ => d
  | .running _ d _ => d
  | .sportsWalking _ d _ _ => d
  | .swimming _ d _ _ _ => d

/-- `self.weight`, shared by every class of the hierarchy. -/
def weight : Training → ℚ
  | .base _ _ w => w
  | .running _ _ w => w
  | .sportsWalking _ _ w _ => w
  | .swimming _ _ w _ _ => w

/-- `self.__class__.__name__`. -/
def className : Training → String
  | .base .. => "Training"
  | .running .. => "Running"
  | .sportsWalking .. => "SportsWalking"
  | .swimming .. => "Swimming"

/-- `Training.get_distance`: `self.action * self.LEN_STEP / self.M_IN_KM`,
with `LEN_STEP` resolved through the class of `self` (no subclass
overrides the method itself). -/
def get_distance (t : Training) : ℚ :=
  t.action * t.LEN_STEP / M_IN_KM

/-- `get_mean_speed`: the base method `self.get_distance() / self.duration`,
overridden by `Swimming` to
`self.length_pool * self.count_pool / self.M_IN_KM / self.duration`. -/
def get_mean_speed : Training → ℚ
  | .swimming _ d _ l c => l * c / M_IN_KM / d
  | t => t.get_distance / t.duration

end Training

namespace Running

/-- `Running.CALORIES_MEAN_SPEED_MULTIPLIER = 18.0`. -/
def CALORIES_MEAN_SPEED_MULTIPLIER : ℚ := 18.0

/-- `Running.CALORIES_MEAN_SPEED_SHIFT = 1.79`. -/
def CALORIES_MEAN_SPEED_SHIFT : ℚ := 1.79

end Running

namespace SportsWalking

/-- `SportsWalking.COEFF_CALORIES_WEIGHT = 0.035`. -/
def COEFF_CALORIES_WEIGHT : ℚ := 0.035

/-- `SportsWalking.COEFF_CALORIES_MEAN_SPEED = 0.029`. -/
def COEFF_CALORIES_MEAN_SPEED : ℚ := 0.029

/-- `SportsWalking.SPEED_IN_MS = 0.278`. -/
def SPEED_IN_MS : ℚ := 0.278

/-- `SportsWalking.HEIGHT_IN_M = 100`. -/
def HEIGHT_IN_M : ℚ := 100

end SportsWalking

namespace Swimming

/-- `Swimming.COEFF_CALORIES_MEAN_SPEED = 1.1`. -/
def COEFF_CALORIES_MEAN_SPEED : ℚ := 1.1

/-- `Swimming.COEFF_CALORIES_WEIGHT = 2.0`. -/
def COEFF_CALORIES_WEIGHT : ℚ := 2.0

end Swimming

namespace Training

/-- `get_spent_calories`, dispatched through the class of `self`.  The
base method raises
`NotImplementedError(f'Метод get_spent_calories не реализован для класса
{self.__class__.__name__}.')`; each subclass overrides it with its own
formula. -/
def get_spent_calories : Training → Except String ℚ
  | .base a d w =>
      .error ("Метод get_spent_calories не реализован для класса "
        ++ (Training.base a d w).className ++ ".")
  | t@(.running _ d w) =>
      .ok ((Running.CALORIES_MEAN_SPEED_MULTIPLIER * t.get_mean_speed
          + Running.CALORIES_MEAN_SPEED_SHIFT)
        * w / M_IN_KM * d * MINUTES_IN_HOUR)
  | t@(.sportsWalking _ d w h) =>
      .ok ((SportsWalking.COEFF_CALORIES_WEIGHT * w
          + (t.get_mean_speed * SportsWalking.SPEED_IN_MS) ^ 2
            / (h / SportsWalking.HEIGHT_IN_M)
            * SportsWalking.COEFF_CALORIES_MEAN_SPEED * w)
        * d * MINUTES_IN_HOUR)
  | t@(.swimming _ d w _ _) =>
      .ok ((t.get_mean_speed + Swimming.COEFF_CALORIES_MEAN_SPEED)
        * Swimming.COEFF_CALORIES_WEIGHT * w * d)

/-- `show_training_info`: builds the `InfoMessage` from the class name,
the stored duration and the three computed metrics; the
`NotImplementedError` of a base-class receiver propagates. -/
def show_training_info (t : Training) : Except String InfoMessage :=
  t.get_spent_calories.map fun c =>
    ⟨t.className, t.duration, t.get_distance, t.get_mean_speed, c⟩

/-- Calling `get_distance` as a method: the body is a single `return` of
a pure expression, no statement assigns to `self`, so the receiver after
the call is the receiver before it.  The pair is (result, post-state). -/
def get_distanceM (t : Training) : ℚ × Training :=
  (t.get_distance, t)

/-- Calling `get_mean_speed` as a method; as for `get_distanceM`, no
statement of either override assigns to `self`. -/
def get_mean_speedM (t : Training) : ℚ × Training :=
  (t.get_mean_speed, t)

/-- Calling `get_spent_calories` as a method; no override assigns to
`self`. -/
def get_spent_caloriesM (t : Training) : Except String ℚ × Training :=
  (t.get_spent_calories, t)

/-- Calling `show_training_info` as a method; its body is a single
`return InfoMessage(...)` and assigns nothing to `self`. -/
def show_training_infoM (t : Training) : Except String InfoMessage × Training :=
  (t.show_training_info, t)

/-- Whether `t` is one of the three concrete subclasses (not a bare
`Training` instance). -/
def isConcrete : Training → Bool
  | .base .. => false
  | _ => true

/-- For a `SportsWalking` receiver, its height; irrelevant elsewhere.
Used only to state nonzero-height hypotheses. -/
def heightNonzero : Training → Prop
  | .sportsWalking _ _ _ h => h ≠ 0
  | _ => True

end Training

/-- The failure modes of `read_package`: the explicit
`ValueError(f'Тренировка {workout_type} не поддерживается.')` for an
unknown code, and the `TypeError` Python itself raises when the argument
list does not match the arity of the selected constructor. -/
inductive ReadPackageError where
  | unsupported (workout_type : String)
  | badArity
deriving DecidableEq

/-- The message of the `ValueError` raised for an unknown code. -/
def ReadPackageError.message : ReadPackageError → String
  | .unsupported t => "Тренировка " ++ t ++ " не поддерживается."
  | .badArity => "TypeError"

/-- `Running(*data)`: positional construction, three parameters. -/
def runningCtor : List ℚ → Except ReadPackageError Training
  | [a, d, w] => .ok (.running a d w)
  | _ => .error .badArity

/-- `SportsWalking(*data)`: positional construction, four parameters. -/
def sportsWalkingCtor : List ℚ → Except ReadPackageError Training
  | [a, d, w, h] => .ok (.sportsWalking a d w h)
  | _ => .error .badArity

/-- `Swimming(*data)`: positional construction, five parameters. -/
def swimmingCtor : List ℚ → Except ReadPackageError Training
  | [a, d, w, l, c] => .ok (.swimming a d w l c)
  | _ => .error .badArity

/-- `read_package`: looks the workout-type code up in the dictionary
`{RUN: Running, WLK: SportsWalking, SWM: Swimming}`, raises the
`ValueError` naming the code when absent, and otherwise applies the
selected constructor to `data` positionally. -/
def read_package (workout_type : String) (data : List ℚ) :
    Except ReadPackageError Training :=
  if workout_type = "RUN" then runningCtor data
  else if workout_type = "WLK" then sportsWalkingCtor data
  else if workout_type = "SWM" then swimmingCtor data
  else .error (.unsupported workout_type)

/-! Theorems. -/

/-- Auxiliary: `Nat.digitChar` of a value below ten is a decimal digit
character. -/
theorem digitChar_isDigit {k : ℕ} (h : k < 10) : (Nat.digitChar k).isDigit = true := by
  interval_cases k <;> decide

/-- Auxiliary: the formatted message contains the training type verbatim,
between the fixed prefix and the rest of the template. -/
theorem get_message_has_type_name (m : InfoMessage) :
    ∃ p s, m.get_message = p ++ m.training_type ++ s :=
  ⟨"Тип тренировки: ",
    "; Длительность: " ++ fmt3 m.duration ++ " ч.; Дистанция: " ++ fmt3 m.distance
      ++ " км; Ср. скорость: " ++ fmt3 m.speed ++ " км/ч; Потрачено ккал: "
      ++ fmt3 m.calories ++ ".",
    by simp only [InfoMessage.get_message, String.append_assoc]⟩

/-- C1 counterexample: on the Running sample (action 15000, duration 1,
weight 75) the calories are exactly `(18.0*9.75+1.79)*75/1000*1*60 =
797.805`; computed exactly to three decimals that is the string
`797.805`, not approximately `792.0` as the claim (following the spec)
states. -/
theorem running_sample_calories_not_792 :
    Training.get_spent_calories (.running 15000 1 75)
        = .ok ((18.0 * 9.75 + 1.79) * 75 / 1000 * 1 * 60)
      ∧ ((18.0 * 9.75 + 1.79) * 75 / 1000 * 1 * 60 : ℚ) = 797.805
      ∧ fmt3 ((18.0 * 9.75 + 1.79) * 75 / 1000 * 1 * 60) = "797.805"
      ∧ "797.805" ≠ "792.000"
      ∧ (5 : ℚ) < |(797.805 : ℚ) - 792| := by
  have hval : ((18.0 * 9.75 + 1.79) * 75 / 1000 * 1 * 60 : ℚ) = 797.805 := by norm_num
  refine ⟨?_, hval, ?_, by decide, by rw [abs_of_nonneg] <;> norm_num⟩
  · simp only [Training.get_spent_calories]
    norm_num [Training.get_mean_speed, Training.get_distance, Training.action,
      Training.duration, Training.LEN_STEP, Training.M_IN_KM, Training.MINUTES_IN_HOUR,
      Running.CALORIES_MEAN_SPEED_MULTIPLIER, Running.CALORIES_MEAN_SPEED_SHIFT]
  · rw [hval]
    have h : round ((797.805 : ℚ) * 1000) = (797805 : ℤ) := by norm_num [round_eq]
    unfold fmt3
    rw [h]
    decide

/-- C1 (amended): for a Running workout with action 15000, duration 1,
weight 75, `get_distance` returns 9.75 km, `get_mean_speed` returns 9.75
km/h, and `get_spent_calories` returns `(18.0*9.75+1.79)*75/1000*1*60`,
which equals exactly 797.805. -/
theorem running_sample_metrics :
    Training.get_distance (.running 15000 1 75) = 9.75
      ∧ Training.get_mean_speed (.running 15000 1 75) = 9.75
      ∧ Training.get_spent_calories (.running 15000 1 75)
          = .ok ((18.0 * 9.75 + 1.79) * 75 / 1000 * 1 * 60)
      ∧ ((18.0 * 9.75 + 1.79) * 75 / 1000 * 1 * 60 : ℚ) = 797.805 := by
  refine ⟨?_, ?_, ?_, by norm_num⟩ <;>
    norm_num [Training.get_spent_calories, Training.get_mean_speed,
      Training.get_distance, Training.action, Training.duration, Training.LEN_STEP,
      Training.M_IN_KM, Training.MINUTES_IN_HOUR,
      Running.CALORIES_MEAN_SPEED_MULTIPLIER, Running.CALORIES_MEAN_SPEED_SHIFT]

/-- C2: any Swimming workout with nonzero duration has mean speed
`length_pool * count_pool / 1000 / duration` while its distance keeps
the default step formula with step length 1.38; on the sample
(720, 1, 80, 25, 40) the speed is 1.0 km/h, the distance is 0.9936 km,
and the calories are `(1.0 + 1.1) * 2.0 * 80 * 1 = 336.0`. -/
theorem swimming_speed_distance_calories (a d w l c : ℚ) (hd : d ≠ 0) :
    Training.get_mean_speed (.swimming a d w l c) = l * c / 1000 / d
      ∧ Training.get_distance (.swimming a d w l c) = a * 1.38 / 1000
      ∧ Training.get_mean_speed (.swimming 720 1 80 25 40) = 1
      ∧ Training.get_distance (.swimming 720 1 80 25 40) = 0.9936
      ∧ Training.get_spent_calories (.swimming 720 1 80 25 40)
          = .ok ((1 + 1.1) * 2.0 * 80 * 1)
      ∧ ((1 + 1.1) * 2.0 * 80 * 1 : ℚ) = 336 := by
  refine ⟨?_, ?_, ?_, ?_, ?_, by norm_num⟩ <;>
    norm_num [Training.get_spent_calories, Training.get_mean_speed,
      Training.get_distance, Training.action, Training.duration, Training.LEN_STEP,
      Training.M_IN_KM, Swimming.COEFF_CALORIES_MEAN_SPEED,
      Swimming.COEFF_CALORIES_WEIGHT]

/-- C2 witness: the Swimming theorem instantiated on the sample workout,
its nonzero-duration hypothesis discharged. -/
theorem swimming_speed_distance_calories_witness :
    Training.get_mean_speed (.swimming 720 1 80 25 40) = 25 * 40 / 1000 / 1
      ∧ Training.get_distance (.swimming 720 1 80 25 40) = 720 * 1.38 / 1000
      ∧ Training.get_mean_speed (.swimming 720 1 80 25 40) = 1
      ∧ Training.get_distance (.swimming 720 1 80 25 40) = 0.9936
      ∧ Training.get_spent_calories (.swimming 720 1 80 25 40)
          = .ok ((1 + 1.1) * 2.0 * 80 * 1)
      ∧ ((1 + 1.1) * 2.0 * 80 * 1 : ℚ) = 336 :=
  swimming_speed_distance_calories 720 1 80 25 40 (by norm_num)

/-- C3: any Walking workout with nonzero duration and height burns
`(0.035*weight + (meanSpeed*0.278)^2 / (height/100) * 0.029*weight) *
duration * 60` calories, where the mean speed is the default
`action * 0.65 / 1000 / duration`; on the sample (9000, 1, 75, 180) the
distance and the mean speed are both 5.85. -/
theorem walking_calories_formula (a d w h : ℚ) (hd : d ≠ 0) (hh : h ≠ 0) :
    Training.get_spent_calories (.sportsWalking a d w h)
        = .ok ((0.035 * w + ((a * 0.65 / 1000 / d) * 0.278) ^ 2 / (h / 100)
            * 0.029 * w) * d * 60)
      ∧ Training.get_mean_speed (.sportsWalking a d w h) = a * 0.65 / 1000 / d
      ∧ Training.get_distance (.sportsWalking 9000 1 75 180) = 5.85
      ∧ Training.get_mean_speed (.sportsWalking 9000 1 75 180) = 5.85 := by
  refine ⟨?_, ?_, ?_, ?_⟩ <;>
    norm_num [Training.get_spent_calories, Training.get_mean_speed,
      Training.get_distance, Training.action, Training.duration, Training.LEN_STEP,
      Training.M_IN_KM, Training.MINUTES_IN_HOUR,
      SportsWalking.COEFF_CALORIES_WEIGHT, SportsWalking.COEFF_CALORIES_MEAN_SPEED,
      SportsWalking.SPEED_IN_MS, SportsWalking.HEIGHT_IN_M]

/-- C3 witness: the Walking theorem instantiated on the sample workout,
both nonzero hypotheses discharged. -/
theorem walking_calories_formula_witness :
    Training.get_spent_calories (.sportsWalking 9000 1 75 180)
        = .ok ((0.035 * 75 + ((9000 * 0.65 / 1000 / 1) * 0.278) ^ 2 / (180 / 100)
            * 0.029 * 75) * 1 * 60)
      ∧ Training.get_mean_speed (.sportsWalking 9000 1 75 180) = 9000 * 0.65 / 1000 / 1
      ∧ Training.get_distance (.sportsWalking 9000 1 75 180) = 5.85
      ∧ Training.get_mean_speed (.sportsWalking 9000 1 75 180) = 5.85 :=
  walking_calories_formula 9000 1 75 180 (by norm_num) (by norm_num)

/-- C4: the formatter renders exactly the fixed template — type name
verbatim, then duration, distance, speed and calories — and every
`fmt3`-rendered field ends in a point followed by exactly three decimal
digit characters, whatever the input value. -/
theorem info_message_format (m : InfoMessage) :
    m.get_message
        = "Тип тренировки: " ++ m.training_type
          ++ "; Длительность: " ++ fmt3 m.duration
          ++ " ч.; Дистанция: " ++ fmt3 m.distance
          ++ " км; Ср. скорость: " ++ fmt3 m.speed
          ++ " км/ч; Потрачено ккал: " ++ fmt3 m.calories ++ "."
      ∧ ∀ q : ℚ, ∃ p a b c, fmt3 q = p ++ "." ++ String.mk [a, b, c]
          ∧ a.isDigit = true ∧ b.isDigit = true ∧ c.isDigit = true := by
  refine ⟨rfl, fun q => ?_⟩
  refine ⟨(if round (q * 1000) < 0 then "-" else "")
      ++ toString ((round (q * 1000)).natAbs / 1000), _, _, _, rfl, ?_, ?_, ?_⟩ <;>
    exact digitChar_isDigit (Nat.mod_lt _ (by norm_num))

/-- C5: `read_package` raises the `ValueError` naming the offending code
exactly when the code is outside {RUN, WLK, SWM}; in particular the code
XYZ with an empty argument list raises it, and each known code builds
the matching variant from the arguments positionally. -/
theorem read_package_dispatch (workout_type : String) (data : List ℚ) :
    ((∃ e, read_package workout_type data = .error (.unsupported e)
          ∧ e = workout_type)
        ↔ workout_type ≠ "RUN" ∧ workout_type ≠ "WLK" ∧ workout_type ≠ "SWM")
      ∧ read_package "XYZ" [] = .error (.unsupported "XYZ")
      ∧ (ReadPackageError.unsupported "XYZ").message
          = "Тренировка " ++ "XYZ" ++ " не поддерживается."
      ∧ (∀ a d w, read_package "RUN" [a, d, w] = .ok (.running a d w))
      ∧ (∀ a d w h, read_package "WLK" [a, d, w, h] = .ok (.sportsWalking a d w h))
      ∧ (∀ a d w l c, read_package "SWM" [a, d, w, l, c]
          = .ok (.swimming a d w l c)) := by
  refine ⟨?_, rfl, rfl, fun a d w => rfl, fun a d w h => rfl, fun a d w l c => rfl⟩
  have hrun : ∀ e, runningCtor data ≠ .error (.unsupported e) := by
    rcases data with _ | ⟨a, _ | ⟨b, _ | ⟨c, _ | ⟨x, t⟩⟩⟩⟩ <;> simp [runningCtor]
  have hwlk : ∀ e, sportsWalkingCtor data ≠ .error (.unsupported e) := by
    rcases data with _ | ⟨a, _ | ⟨b, _ | ⟨c, _ | ⟨x, _ | ⟨y, t⟩⟩⟩⟩⟩ <;>
      simp [sportsWalkingCtor]
  have hswm : ∀ e, swimmingCtor data ≠ .error (.unsupported e) := by
    rcases data with _ | ⟨a, _ | ⟨b, _ | ⟨c, _ | ⟨x, _ | ⟨y, _ | ⟨z, t⟩⟩⟩⟩⟩⟩ <;>
      simp [swimmingCtor]
  unfold read_package
  by_cases h1 : workout_type = "RUN" <;> by_cases h2 : workout_type = "WLK" <;>
    by_cases h3 : workout_type = "SWM" <;>
    simp [h1, h2, h3, hrun, hwlk, hswm]

/-- C6: `get_spent_calories` on a bare `Training` instance raises the
`NotImplementedError` whose message names the receiver's class
(`Training` here), and every one of the three concrete subclasses
overrides the method and returns a value, so the error is unreachable
through them. -/
theorem base_calories_not_implemented :
    (∀ a d w, Training.get_spent_calories (.base a d w)
          = .error ("Метод get_spent_calories не реализован для класса "
              ++ Training.className (.base a d w) ++ ".")
        ∧ Training.className (.base a d w) = "Training")
      ∧ (∀ a d w, ∃ v, Training.get_spent_calories (.running a d w) = .ok v)
      ∧ (∀ a d w h, ∃ v,
          Training.get_spent_calories (.sportsWalking a d w h) = .ok v)
      ∧ (∀ a d w l c, ∃ v,
          Training.get_spent_calories (.swimming a d w l c) = .ok v) :=
  ⟨fun a d w => ⟨rfl, rfl⟩, fun a d w => ⟨_, rfl⟩, fun a d w h => ⟨_, rfl⟩,
    fun a d w l c => ⟨_, rfl⟩⟩

/-- C7: `show_training_info` is pure and idempotent on every concrete
workout with nonzero duration (and nonzero height for Walking): the
receiver is unchanged by a call, and a second call on the post-state
receiver produces an identical `InfoMessage`. -/
theorem show_training_info_idempotent (t : Training) (hc : t.isConcrete = true)
    (hd : t.duration ≠ 0) (hh : t.heightNonzero) :
    (Training.show_training_infoM t).1
        = (Training.show_training_infoM (Training.show_training_infoM t).2).1
      ∧ (Training.show_training_infoM t).2 = t
      ∧ (Training.show_training_infoM (Training.show_training_infoM t).2).2 = t :=
  ⟨rfl, rfl, rfl⟩

/-- C7 witness: idempotence on the sample Running workout, all three
hypotheses discharged. -/
theorem show_training_info_idempotent_witness :
    (Training.show_training_infoM (.running 15000 1 75)).1
        = (Training.show_training_infoM
            (Training.show_training_infoM (.running 15000 1 75)).2).1
      ∧ (Training.show_training_infoM (.running 15000 1 75)).2 = .running 15000 1 75
      ∧ (Training.show_training_infoM
            (Training.show_training_infoM (.running 15000 1 75)).2).2
          = .running 15000 1 75 :=
  show_training_info_idempotent (.running 15000 1 75) rfl
    (by norm_num [Training.duration]) trivial

/-- C8: the `typeName` stored in the summary is the Python class name —
`Running` for RUN, `SportsWalking` (not `Walking`) for WLK, `Swimming`
for SWM — and that exact string appears in the formatted output line. -/
theorem class_names_reported (a d w h l c : ℚ) :
    read_package "RUN" [a, d, w] = .ok (.running a d w)
      ∧ (Training.show_training_info (.running a d w)).map InfoMessage.training_type
          = .ok "Running"
      ∧ (∃ p s, (Training.show_training_info (.running a d w)).map
          InfoMessage.get_message = .ok (p ++ "Running" ++ s))
      ∧ read_package "WLK" [a, d, w, h] = .ok (.sportsWalking a d w h)
      ∧ (Training.show_training_info (.sportsWalking a d w h)).map
          InfoMessage.training_type = .ok "SportsWalking"
      ∧ (∃ p s, (Training.show_training_info (.sportsWalking a d w h)).map
          InfoMessage.get_message = .ok (p ++ "SportsWalking" ++ s))
      ∧ read_package "SWM" [a, d, w, l, c] = .ok (.swimming a d w l c)
      ∧ (Training.show_training_info (.swimming a d w l c)).map
          InfoMessage.training_type = .ok "Swimming"
      ∧ (∃ p s, (Training.show_training_info (.swimming a d w l c)).map
          InfoMessage.get_message = .ok (p ++ "Swimming" ++ s)) := by
  refine ⟨rfl, rfl, ?_, rfl, rfl, ?_, rfl, rfl, ?_⟩
  · obtain ⟨p, s, hps⟩ := get_message_has_type_name
      ⟨"Running", d, Training.get_distance (.running a d w),
        Training.get_mean_speed (.running a d w),
        (Running.CALORIES_MEAN_SPEED_MULTIPLIER
            * Training.get_mean_speed (.running a d w)
          + Running.CALORIES_MEAN_SPEED_SHIFT)
        * w / Training.M_IN_KM * d * Training.MINUTES_IN_HOUR⟩
    exact ⟨p, s, congrArg Except.ok hps⟩
  · obtain ⟨p, s, hps⟩ := get_message_has_type_name
      ⟨"SportsWalking", d, Training.get_distance (.sportsWalking a d w h),
        Training.get_mean_speed (.sportsWalking a d w h),
        (SportsWalking.COEFF_CALORIES_WEIGHT * w
          + (Training.get_mean_speed (.sportsWalking a d w h)
              * SportsWalking.SPEED_IN_MS) ^ 2
            / (h / SportsWalking.HEIGHT_IN_M)
            * SportsWalking.COEFF_CALORIES_MEAN_SPEED * w)
        * d * Training.MINUTES_IN_HOUR⟩
    exact ⟨p, s, congrArg Except.ok hps⟩
  · obtain ⟨p, s, hps⟩ := get_message_has_type_name
      ⟨"Swimming", d, Training.get_distance (.swimming a d w l c),
        Training.get_mean_speed (.swimming a d w l c),
        (Training.get_mean_speed (.swimming a d w l c)
            + Swimming.COEFF_CALORIES_MEAN_SPEED)
          * Swimming.COEFF_CALORIES_WEIGHT * w * d⟩
    exact ⟨p, s, congrArg Except.ok hps⟩

/-- C9: no method call mutates the receiver: for every concrete workout,
each of the four methods leaves the post-state receiver — and with it
every stored field — equal to the pre-state receiver. -/
theorem methods_do_not_mutate (t : Training) (hc : t.isConcrete = true) :
    (Training.get_distanceM t).2 = t
      ∧ (Training.get_mean_speedM t).2 = t
      ∧ (Training.get_spent_caloriesM t).2 = t
      ∧ (Training.show_training_infoM t).2 = t :=
  ⟨rfl, rfl, rfl, rfl⟩

/-- C9 witness: the no-mutation theorem on the sample Swimming workout,
its concreteness hypothesis discharged. -/
theorem methods_do_not_mutate_witness :
    (Training.get_distanceM (.swimming 720 1 80 25 40)).2 = .swimming 720 1 80 25 40
      ∧ (Training.get_mean_speedM (.swimming 720 1 80 25 40)).2
          = .swimming 720 1 80 25 40
      ∧ (Training.get_spent_caloriesM (.swimming 720 1 80 25 40)).2
          = .swimming 720 1 80 25 40
      ∧ (Training.show_training_infoM (.swimming 720 1 80 25 40)).2
          = .swimming 720 1 80 25 40 :=
  methods_do_not_mutate (.swimming 720 1 80 25 40) rfl

/-- C10: Swimming's mean speed ignores the stroke count and the weight:
two Swimming workouts agreeing on pool length, lap count and (nonzero)
duration get the same mean speed whatever their action and weight. -/
theorem swimming_speed_independent_of_action_weight
    (a₁ w₁ a₂ w₂ d l c : ℚ) (hd : d ≠ 0) :
    Training.get_mean_speed (.swimming a₁ d w₁ l c)
      = Training.get_mean_speed (.swimming a₂ d w₂ l c) :=
  rfl

/-- C10 witness: two Swimming workouts with the sample pool metrics but
wildly different action and weight, the duration hypothesis
discharged. -/
theorem swimming_speed_independent_witness :
    Training.get_mean_speed (.swimming 720 1 80 25 40)
      = Training.get_mean_speed (.swimming 999999 1 5 25 40) :=
  swimming_speed_independent_of_action_weight 720 80 999999 5 1 25 40 (by norm_num)
